import Mathlib

/-!
Verification of the prediction request handler in
`google/cloud/aiplatform/prediction/handler.py`.

The file under `src/` defines two classes:

* `Handler` — a base class whose `__init__` and `handle` bodies are `pass`;
* `PredictionHandler` — the default handler: its constructor rejects a missing
  predictor class, instantiates the predictor and calls `load`; its `handle`
  deserializes the request body, runs `preprocess`/`predict`/`postprocess`,
  serializes the result and returns a `Response`.

The collaborators (`handler_utils.get_content_type_from_headers`, the
`Predictor` capability set and the serializer) live in this repository but not
under `src/`; they are embedded as abstract capability records, and the header
extraction helper is modelled from the spec.  Every call the handler makes to a
collaborator is recorded in an explicit event trace so that call order, call
counts and data flow between the stages can be stated and proved.
-/

/-- Raw HTTP body bytes, modelled as a list of byte values. -/
abbrev Bytes := List Nat

/-- HTTP headers: a mapping of header names to values. -/
abbrev Headers := List (String × String)

/-- A Python exception value: either the `ValueError` the handler itself raises
(carrying its message), or an arbitrary exception `e : ε` raised by a
collaborator. -/
inductive PyExc (ε : Type) where
  | ValueError (msg : String)
  | other (e : ε)
  deriving DecidableEq

/-- An incoming HTTP request: header mapping plus opaque body bytes. -/
structure Request where
  headers : Headers
  body : Bytes
  deriving DecidableEq

/-- An outgoing HTTP response: serialized body bytes plus the declared media
type, mirroring `Response(content=data, media_type=accept)`. -/
structure Response where
  content : Bytes
  media_type : String
  deriving DecidableEq

/-- The predictor capability set (external collaborator, class
`google.cloud.aiplatform.prediction.predictor.Predictor`): `load` plus the
three pipeline stages.  Each operation may raise, modelled with `Except`. -/
structure PredictorClass (ε α β γ δ : Type) where
  load : String → Except (PyExc ε) Unit
  preprocess : α → Except (PyExc ε) β
  predict : β → Except (PyExc ε) γ
  postprocess : γ → Except (PyExc ε) δ

/-- The serializer capability set (external collaborator,
`DefaultSerializer`): `deserialize`/`serialize`, each of which may raise, plus
the default content type the serializer defines. -/
structure Serializer (ε α δ : Type) where
  deserialize : Bytes → String → Except (PyExc ε) α
  serialize : δ → String → Except (PyExc ε) Bytes
  default_content_type : String

/-- One observable collaborator call made by the handler, recording the exact
arguments the collaborator received. -/
inductive Event (α β γ δ : Type) where
  | constructPredictor
  | load (uri : String)
  | deserialize (body : Bytes) (content_type : String)
  | preprocess (input : α)
  | predict (input : β)
  | postprocess (input : γ)
  | serialize (output : δ) (accept : String)
  deriving DecidableEq

/-- Discriminator: is this event a `load` call? -/
def Event.isLoadEvent {α β γ δ : Type} : Event α β γ δ → Bool
  | .load _ => true
  | _ => false

/-- Discriminator: is this event a predictor construction? -/
def Event.isConstructEvent {α β γ δ : Type} : Event α β γ δ → Bool
  | .constructPredictor => true
  | _ => false

/-- The header name looked up by the extraction helper. -/
def contentTypeHeaderName : String := "content-type"

/-- ASCII lowercase of one character, as used for case-insensitive header
lookup. -/
def lowerChar (c : Char) : Char :=
  if 65 ≤ c.toNat ∧ c.toNat ≤ 90 then Char.ofNat (c.toNat + 32) else c

/-- ASCII lowercase of a header name, character by character. -/
def lowerString (s : String) : String := String.mk (s.data.map lowerChar)

/-- Modelled from the spec: `handler_utils.get_content_type_from_headers` is
code of this repository that is not under `src/`.  Per the spec it performs a
case-insensitive lookup of the content-type-bearing header in the request
headers and, when no such header is present, falls back to the default content
type defined by the collaborating serializer. -/
def get_content_type_from_headers (headers : Headers) (default_type : String) : String :=
  match headers.find? (fun kv => lowerString kv.fst == contentTypeHeaderName) with
  | some kv => kv.snd
  | none => default_type

/-- The message of the `ValueError` raised by `PredictionHandler.__init__`. -/
def initErrorMsg : String :=
  "PredictionHandler must have a predictor class passed to the init function."

/-- The state of a constructed `PredictionHandler`: the single predictor
instance stored in `self._predictor`. -/
structure PredictionHandler (ε α β γ δ : Type) where
  _predictor : PredictorClass ε α β γ δ

/-- `PredictionHandler.__init__(gcs_artifacts_uri, predictor)`: raises
`ValueError` when `predictor is None`; otherwise constructs the predictor
instance and calls `load(gcs_artifacts_uri)` on it.  Returns the constructed
handler (or the propagated exception) together with the trace of collaborator
calls made during construction. -/
def PredictionHandler.init {ε α β γ δ : Type} (gcs_artifacts_uri : String)
    (predictor : Option (PredictorClass ε α β γ δ)) :
    Except (PyExc ε) (PredictionHandler ε α β γ δ) × List (Event α β γ δ) :=
  match predictor with
  | none => (Except.error (PyExc.ValueError initErrorMsg), [])
  | some p =>
      match p.load gcs_artifacts_uri with
      | Except.error e =>
          (Except.error e, [Event.constructPredictor, Event.load gcs_artifacts_uri])
      | Except.ok _ =>
          (Except.ok ⟨p⟩, [Event.constructPredictor, Event.load gcs_artifacts_uri])

/-- `PredictionHandler.handle(request)`, lines 97–107 of the source: read the
body, extract the content type, deserialize, run
`postprocess(predict(preprocess(prediction_input)))`, extract the accept type
with the same helper, serialize, and build the response.  Returns the
response (or the first propagated exception) together with the trace of
collaborator calls actually made, in order. -/
def PredictionHandler.handle {ε α β γ δ : Type} (self : PredictionHandler ε α β γ δ)
    (S : Serializer ε α δ) (request : Request) :
    Except (PyExc ε) Response × List (Event α β γ δ) :=
  let request_body := request.body
  let content_type := get_content_type_from_headers request.headers S.default_content_type
  match S.deserialize request_body content_type with
  | Except.error e => (Except.error e, [Event.deserialize request_body content_type])
  | Except.ok prediction_input =>
    match self._predictor.preprocess prediction_input with
    | Except.error e =>
        (Except.error e,
         [Event.deserialize request_body content_type, Event.preprocess prediction_input])
    | Except.ok preprocessed =>
      match self._predictor.predict preprocessed with
      | Except.error e =>
          (Except.error e,
           [Event.deserialize request_body content_type, Event.preprocess prediction_input,
            Event.predict preprocessed])
      | Except.ok predicted =>
        match self._predictor.postprocess predicted with
        | Except.error e =>
            (Except.error e,
             [Event.deserialize request_body content_type, Event.preprocess prediction_input,
              Event.predict preprocessed, Event.postprocess predicted])
        | Except.ok prediction_results =>
          let accept := get_content_type_from_headers request.headers S.default_content_type
          match S.serialize prediction_results accept with
          | Except.error e =>
              (Except.error e,
               [Event.deserialize request_body content_type,
                Event.preprocess prediction_input, Event.predict preprocessed,
                Event.postprocess predicted, Event.serialize prediction_results accept])
          | Except.ok data =>
              (Except.ok ⟨data, accept⟩,
               [Event.deserialize request_body content_type,
                Event.preprocess prediction_input, Event.predict preprocessed,
                Event.postprocess predicted, Event.serialize prediction_results accept])

/-- `Handler.__init__` has body `pass`: it accepts every argument combination,
returns `None` and raises nothing. -/
def Handler.init {ε α β γ δ : Type} (gcs_artifacts_uri : String)
    (predictor : Option (PredictorClass ε α β γ δ)) : Except (PyExc ε) Unit :=
  Except.ok ()

/-- `Handler.handle` has body `pass`: it returns `None` (not a response) for
every request and raises nothing. -/
def Handler.handle {ε : Type} (request : Request) : Except (PyExc ε) (Option Response) :=
  Except.ok none

/-! Concrete fixtures used by the witness theorems. -/

/-- Marker payload for collaborator-raised exceptions in the fixtures. -/
def boomMsg : String := "boom"

/-- Media type literals used by the fixtures. -/
def jsonType : String := "application/json"

/-- A non-default media type used by the fixtures. -/
def csvType : String := "text/csv"

/-- Header name as typically sent, to exercise the case-insensitive lookup. -/
def canonicalHeaderName : String := "Content-Type"

/-- A predictor whose stages all succeed, with distinguishable arithmetic. -/
def wPredictor : PredictorClass String Nat Nat Nat Nat :=
  ⟨fun _ => Except.ok (), fun n => Except.ok (n + 1), fun n => Except.ok (n * 2),
   fun n => Except.ok (n + 3)⟩

/-- A predictor whose `predict` stage raises. -/
def wPredictFail : PredictorClass String Nat Nat Nat Nat :=
  ⟨fun _ => Except.ok (), fun n => Except.ok (n + 1),
   fun _ => Except.error (PyExc.other boomMsg), fun n => Except.ok (n + 3)⟩

/-- A serializer whose operations succeed. -/
def wSerializer : Serializer String Nat Nat :=
  ⟨fun b _ => Except.ok b.length, fun n _ => Except.ok (List.replicate n 0), jsonType⟩

/-- A serializer whose `deserialize` raises. -/
def wSerializerFail : Serializer String Nat Nat :=
  ⟨fun _ _ => Except.error (PyExc.other boomMsg),
   fun n _ => Except.ok (List.replicate n 0), jsonType⟩

/-- A request carrying a content-type header. -/
def wRequest : Request := ⟨[(canonicalHeaderName, csvType)], [1, 2, 3]⟩

/-- A request carrying no content-type-bearing header. -/
def wRequestNoHeader : Request := ⟨[], [1, 2, 3]⟩

/-- A handler over the all-succeeding predictor. -/
def wHandler : PredictionHandler String Nat Nat Nat Nat := ⟨wPredictor⟩

/-- A handler over the predictor whose `predict` raises. -/
def wHandlerPredictFail : PredictionHandler String Nat Nat Nat Nat := ⟨wPredictFail⟩

/-- Claim C1: when every stage succeeds, `handle` invokes `preprocess`,
`predict` and `postprocess` exactly once each, in that order, and each stage's
output is the sole input of the next stage: the trace records exactly one call
to each stage, with `predict` receiving exactly `preprocess`'s result and
`postprocess` receiving exactly `predict`'s result. -/
theorem handle_invokes_pipeline_in_order {ε α β γ δ : Type}
    (self : PredictionHandler ε α β γ δ) (S : Serializer ε α δ) (request : Request)
    (x : α) (p : β) (q : γ) (r : δ)
    (hdes : S.deserialize request.body
      (get_content_type_from_headers request.headers S.default_content_type) = Except.ok x)
    (hpre : self._predictor.preprocess x = Except.ok p)
    (hprd : self._predictor.predict p = Except.ok q)
    (hpost : self._predictor.postprocess q = Except.ok r) :
    (self.handle S request).2 =
      [Event.deserialize request.body
        (get_content_type_from_headers request.headers S.default_content_type),
       Event.preprocess x, Event.predict p, Event.postprocess q,
       Event.serialize r
        (get_content_type_from_headers request.headers S.default_content_type)] := by
  simp only [PredictionHandler.handle, hdes, hpre, hprd, hpost]
  cases S.serialize r (get_content_type_from_headers request.headers S.default_content_type) <;>
    rfl

/-- Witness for C1 at a concrete handler, serializer and request. -/
theorem handle_invokes_pipeline_in_order_witness :
    (wHandler.handle wSerializer wRequest).2 =
      [Event.deserialize wRequest.body
        (get_content_type_from_headers wRequest.headers wSerializer.default_content_type),
       Event.preprocess 3, Event.predict 4, Event.postprocess 8,
       Event.serialize 11
        (get_content_type_from_headers wRequest.headers wSerializer.default_content_type)] :=
  handle_invokes_pipeline_in_order wHandler wSerializer wRequest 3 4 8 11 rfl rfl rfl rfl

/-- Claim C2: constructing a `PredictionHandler` with `predictor = None` raises
`ValueError` (with the source's message) for every storage-location value, and
the construction trace is empty: no predictor instance is constructed and
`load` is never invoked. -/
theorem init_none_raises_value_error {ε α β γ δ : Type} (gcs_artifacts_uri : String) :
    PredictionHandler.init gcs_artifacts_uri (none : Option (PredictorClass ε α β γ δ)) =
      (Except.error (PyExc.ValueError initErrorMsg), []) := rfl

/-- Claim C3: when the serializer accepts the request and every stage and the
final serialization succeed, `handle` returns a response whose declared media
type is the extracted accept type and whose body is
`serialize(postprocess(predict(preprocess(deserialize(body, content_type)))), accept)`. -/
theorem handle_success_response {ε α β γ δ : Type}
    (self : PredictionHandler ε α β γ δ) (S : Serializer ε α δ) (request : Request)
    (x : α) (p : β) (q : γ) (r : δ) (data : Bytes)
    (hdes : S.deserialize request.body
      (get_content_type_from_headers request.headers S.default_content_type) = Except.ok x)
    (hpre : self._predictor.preprocess x = Except.ok p)
    (hprd : self._predictor.predict p = Except.ok q)
    (hpost : self._predictor.postprocess q = Except.ok r)
    (hser : S.serialize r
      (get_content_type_from_headers request.headers S.default_content_type) =
        Except.ok data) :
    (self.handle S request).1 =
      Except.ok ⟨data, get_content_type_from_headers request.headers S.default_content_type⟩ := by
  simp only [PredictionHandler.handle, hdes, hpre, hprd, hpost, hser]

/-- Witness for C3 at a concrete handler, serializer and request. -/
theorem handle_success_response_witness :
    (wHandler.handle wSerializer wRequest).1 =
      Except.ok ⟨List.replicate 11 0,
        get_content_type_from_headers wRequest.headers wSerializer.default_content_type⟩ :=
  handle_success_response wHandler wSerializer wRequest 3 4 8 11 (List.replicate 11 0)
    rfl rfl rfl rfl rfl

/-- Claim C4: the accept type used for the response is extracted from the
request headers by the same extraction logic as the content type used for
deserialization: whenever `handle` returns a response, its media type equals
`get_content_type_from_headers` of the request headers, and the deserialize
call recorded first in the trace used that very same value as its content
type. -/
theorem handle_accept_equals_content_type {ε α β γ δ : Type}
    (self : PredictionHandler ε α β γ δ) (S : Serializer ε α δ) (request : Request)
    (resp : Response)
    (h : (self.handle S request).1 = Except.ok resp) :
    resp.media_type = get_content_type_from_headers request.headers S.default_content_type ∧
    (self.handle S request).2.head? =
      some (Event.deserialize request.body resp.media_type) := by
  simp only [PredictionHandler.handle] at h ⊢
  split at h
  · simp at h
  split at h
  · simp at h
  split at h
  · simp at h
  split at h
  · simp at h
  split at h
  · simp at h
  · injection h with h2
    subst h2
    exact ⟨rfl, rfl⟩

/-- Witness for C4 at a concrete handler, serializer and request. -/
theorem handle_accept_equals_content_type_witness :
    (⟨List.replicate 11 0, csvType⟩ : Response).media_type =
      get_content_type_from_headers wRequest.headers wSerializer.default_content_type ∧
    (wHandler.handle wSerializer wRequest).2.head? =
      some (Event.deserialize wRequest.body
        (⟨List.replicate 11 0, csvType⟩ : Response).media_type) :=
  handle_accept_equals_content_type wHandler wSerializer wRequest
    ⟨List.replicate 11 0, csvType⟩ rfl

/-- Claim C5: if `predict` raises, `handle` propagates that exact error and the
trace ends at the `predict` call: `postprocess` is not invoked and no
serialization is performed. -/
theorem handle_predict_error_propagates {ε α β γ δ : Type}
    (self : PredictionHandler ε α β γ δ) (S : Serializer ε α δ) (request : Request)
    (x : α) (p : β) (e : PyExc ε)
    (hdes : S.deserialize request.body
      (get_content_type_from_headers request.headers S.default_content_type) = Except.ok x)
    (hpre : self._predictor.preprocess x = Except.ok p)
    (hprd : self._predictor.predict p = Except.error e) :
    (self.handle S request).1 = Except.error e ∧
    (self.handle S request).2 =
      [Event.deserialize request.body
        (get_content_type_from_headers request.headers S.default_content_type),
       Event.preprocess x, Event.predict p] := by
  simp [PredictionHandler.handle, hdes, hpre, hprd]

/-- Witness for C5: a concrete predictor whose `predict` raises. -/
theorem handle_predict_error_propagates_witness :
    (wHandlerPredictFail.handle wSerializer wRequest).1 =
      Except.error (PyExc.other boomMsg) ∧
    (wHandlerPredictFail.handle wSerializer wRequest).2 =
      [Event.deserialize wRequest.body
        (get_content_type_from_headers wRequest.headers wSerializer.default_content_type),
       Event.preprocess 3, Event.predict 4] :=
  handle_predict_error_propagates wHandlerPredictFail wSerializer wRequest 3 4
    (PyExc.other boomMsg) rfl rfl rfl

/-- Claim C6: successful construction invokes `load` exactly once, with exactly
the supplied storage location, and a failure during `load` propagates as a
construction failure; the constructed handler stores the predictor instance. -/
theorem init_some_loads_once {ε α β γ δ : Type} (gcs_artifacts_uri : String)
    (P : PredictorClass ε α β γ δ) :
    (PredictionHandler.init gcs_artifacts_uri (some P)).2 =
      [Event.constructPredictor, Event.load gcs_artifacts_uri] ∧
    (PredictionHandler.init gcs_artifacts_uri (some P)).1 =
      (match P.load gcs_artifacts_uri with
       | Except.ok _ => Except.ok ⟨P⟩
       | Except.error e => Except.error e) := by
  cases h : P.load gcs_artifacts_uri <;>
    simp [PredictionHandler.init, h]

/-- Helper: every event in a `handle` trace is a stage, deserialize or
serialize call — never a predictor construction and never a `load`. -/
theorem handle_trace_no_construct_no_load {ε α β γ δ : Type}
    (self : PredictionHandler ε α β γ δ) (S : Serializer ε α δ) (request : Request) :
    ∀ ev ∈ (self.handle S request).2,
      ev.isConstructEvent = false ∧ ev.isLoadEvent = false := by
  simp only [PredictionHandler.handle]
  split
  · simp [Event.isConstructEvent, Event.isLoadEvent]
  split
  · simp [Event.isConstructEvent, Event.isLoadEvent]
  split
  · simp [Event.isConstructEvent, Event.isLoadEvent]
  split
  · simp [Event.isConstructEvent, Event.isLoadEvent]
  split <;> simp [Event.isConstructEvent, Event.isLoadEvent]

/-- Claim C7: exactly one predictor instance is constructed and loaded, at
construction time, and `handle` never constructs a predictor and never invokes
`load` again: the construction trace contains exactly one construction event
and one load event, while the trace of every `handle` call contains none of
either. -/
theorem predictor_constructed_once_never_reloaded {ε α β γ δ : Type}
    (gcs_artifacts_uri : String) (P : PredictorClass ε α β γ δ)
    (self : PredictionHandler ε α β γ δ) (S : Serializer ε α δ) (request : Request) :
    (PredictionHandler.init gcs_artifacts_uri (some P)).2.countP Event.isConstructEvent = 1 ∧
    (PredictionHandler.init gcs_artifacts_uri (some P)).2.countP Event.isLoadEvent = 1 ∧
    (self.handle S request).2.countP Event.isConstructEvent = 0 ∧
    (self.handle S request).2.countP Event.isLoadEvent = 0 := by
  refine ⟨?_, ?_, ?_, ?_⟩
  · cases h : P.load gcs_artifacts_uri <;>
      simp [PredictionHandler.init, h, List.countP_cons, List.countP_nil,
        Event.isConstructEvent, Event.isLoadEvent]
  · cases h : P.load gcs_artifacts_uri <;>
      simp [PredictionHandler.init, h, List.countP_cons, List.countP_nil,
        Event.isConstructEvent, Event.isLoadEvent]
  · exact List.countP_eq_zero.mpr fun ev hev => by
      simpa using (handle_trace_no_construct_no_load self S request ev hev).1
  · exact List.countP_eq_zero.mpr fun ev hev => by
      simpa using (handle_trace_no_construct_no_load self S request ev hev).2

/-- Claim C8: `handle` performs no local error recovery: whenever it returns an
error, that error is exactly the error raised by the single collaborator call
that failed — deserialization, one of the three predictor stages, or
serialization — propagated unchanged to the caller. -/
theorem handle_propagates_every_error {ε α β γ δ : Type}
    (self : PredictionHandler ε α β γ δ) (S : Serializer ε α δ) (request : Request)
    (e : PyExc ε)
    (h : (self.handle S request).1 = Except.error e) :
    S.deserialize request.body
      (get_content_type_from_headers request.headers S.default_content_type) =
        Except.error e ∨
    (∃ x, S.deserialize request.body
        (get_content_type_from_headers request.headers S.default_content_type) =
          Except.ok x ∧
      self._predictor.preprocess x = Except.error e) ∨
    (∃ x p, self._predictor.preprocess x = Except.ok p ∧
      self._predictor.predict p = Except.error e) ∨
    (∃ p q, self._predictor.predict p = Except.ok q ∧
      self._predictor.postprocess q = Except.error e) ∨
    (∃ q r, self._predictor.postprocess q = Except.ok r ∧
      S.serialize r
        (get_content_type_from_headers request.headers S.default_content_type) =
          Except.error e) := by
  simp only [PredictionHandler.handle] at h
  split at h
  next e1 heq =>
    injection h with h2
    subst h2
    exact Or.inl heq
  next x heq =>
  split at h
  next e1 heq2 =>
    injection h with h2
    subst h2
    exact Or.inr (Or.inl ⟨x, heq, heq2⟩)
  next p heq2 =>
  split at h
  next e1 heq3 =>
    injection h with h2
    subst h2
    exact Or.inr (Or.inr (Or.inl ⟨x, p, heq2, heq3⟩))
  next q heq3 =>
  split at h
  next e1 heq4 =>
    injection h with h2
    subst h2
    exact Or.inr (Or.inr (Or.inr (Or.inl ⟨p, q, heq3, heq4⟩)))
  next r heq4 =>
  split at h
  next e1 heq5 =>
    injection h with h2
    subst h2
    exact Or.inr (Or.inr (Or.inr (Or.inr ⟨q, r, heq4, heq5⟩)))
  next data heq5 => simp at h

/-- Witness for C8: a concrete serializer whose `deserialize` raises. -/
theorem handle_propagates_every_error_witness :
    wSerializerFail.deserialize wRequest.body
      (get_content_type_from_headers wRequest.headers wSerializerFail.default_content_type) =
        Except.error (PyExc.other boomMsg) ∨
    (∃ x, wSerializerFail.deserialize wRequest.body
        (get_content_type_from_headers wRequest.headers wSerializerFail.default_content_type) =
          Except.ok x ∧
      wHandler._predictor.preprocess x = Except.error (PyExc.other boomMsg)) ∨
    (∃ x p, wHandler._predictor.preprocess x = Except.ok p ∧
      wHandler._predictor.predict p = Except.error (PyExc.other boomMsg)) ∨
    (∃ p q, wHandler._predictor.predict p = Except.ok q ∧
      wHandler._predictor.postprocess q = Except.error (PyExc.other boomMsg)) ∨
    (∃ q r, wHandler._predictor.postprocess q = Except.ok r ∧
      wSerializerFail.serialize r
        (get_content_type_from_headers wRequest.headers wSerializerFail.default_content_type) =
          Except.error (PyExc.other boomMsg)) :=
  handle_propagates_every_error wHandler wSerializerFail wRequest
    (PyExc.other boomMsg) rfl

/-- Claim C9: if the request carries no content-type-bearing header, the
extracted content type falls back to the serializer's default type, and the
deserialize call performed by `handle` (the first trace event) uses that
default. -/
theorem handle_absent_header_falls_back {ε α β γ δ : Type}
    (self : PredictionHandler ε α β γ δ) (S : Serializer ε α δ) (request : Request)
    (h : ∀ kv ∈ request.headers, ¬ lowerString kv.fst = contentTypeHeaderName) :
    get_content_type_from_headers request.headers S.default_content_type =
      S.default_content_type ∧
    (self.handle S request).2.head? =
      some (Event.deserialize request.body S.default_content_type) := by
  have hfind : request.headers.find?
      (fun kv => lowerString kv.fst == contentTypeHeaderName) = none := by
    apply List.find?_eq_none.mpr
    intro kv hkv
    simpa using h kv hkv
  have hct : get_content_type_from_headers request.headers S.default_content_type =
      S.default_content_type := by
    simp [get_content_type_from_headers, hfind]
  refine ⟨hct, ?_⟩
  simp only [PredictionHandler.handle, hct]
  split
  · rfl
  split
  · rfl
  split
  · rfl
  split
  · rfl
  split <;> rfl

/-- Witness for C9: a concrete request with no headers at all. -/
theorem handle_absent_header_falls_back_witness :
    get_content_type_from_headers wRequestNoHeader.headers wSerializer.default_content_type =
      wSerializer.default_content_type ∧
    (wHandler.handle wSerializer wRequestNoHeader).2.head? =
      some (Event.deserialize wRequestNoHeader.body wSerializer.default_content_type) :=
  handle_absent_header_falls_back wHandler wSerializer wRequestNoHeader
    (by simp [wRequestNoHeader])

/-- Claim C10: the base `Handler` class enforces nothing at the public
interface: its constructor succeeds for every argument combination — including
`predictor = None`, with no configuration error — and its `handle` returns
`None` rather than a response for every request. -/
theorem base_handler_enforces_nothing {ε α β γ δ : Type} (gcs_artifacts_uri : String)
    (predictor : Option (PredictorClass ε α β γ δ)) (request : Request) :
    Handler.init gcs_artifacts_uri predictor = Except.ok () ∧
    Handler.init gcs_artifacts_uri (none : Option (PredictorClass ε α β γ δ)) =
      Except.ok () ∧
    (Handler.handle request : Except (PyExc ε) (Option Response)) = Except.ok none :=
  ⟨rfl, rfl, rfl⟩
